import Mathlib

/-!
Shallow embedding of the smart-order-routing repository
(src/ml_models/routing_model.py, src/services/exchange_service.py,
src/services/routing_service.py) and verification of its specification.

Python floats are modelled as rationals, except where IEEE semantics are
observable: the allocation division can hit a zero total, where numpy
float64 arithmetic yields inf or nan with a RuntimeWarning instead of
raising, so allocation values are a `PyFloat` (finite rational, posinf,
neginf or nan).  `np.tanh` is an abstract function parameter; the trained
scikit-learn models (`predict_routing_success`, `predict_market_impact`)
are an abstract `Oracle` of pure functions, exactly as the spec treats the
Scoring Oracle.  Python exceptions are `Except.error` values; in particular
`ExchangeSimulator.execute_order` raises `AttributeError` on every call
(exchange_service.py line 67 calls `random.exponential`, which the stdlib
random module does not define), so its model is that error, and the
unreachable remainder of its body is modelled separately as
`execute_order_body`.  Python dicts keyed by exchange id are association
lists with insertion-order semantics (`dictInsert` overwrites in place,
else appends).
-/

/-- Feature snapshot for one venue: `ExchangeFeatures` dataclass of
`routing_model.py`. -/
structure ExchangeFeatures where
  exchange_id : String
  latency_ms : ℚ
  liquidity_score : ℚ
  spread : ℚ
  volume_imbalance : ℚ
  historical_fill_rate : ℚ
  fee_percentage : ℚ
  market_impact_estimate : ℚ
deriving DecidableEq

/-- Abstract Scoring Oracle: `predict_routing_success` (its probability
component) and `predict_market_impact` of `MLRoutingEngine`, as pure
functions of the feature vector (features plus order size). -/
structure Oracle where
  successProb : ExchangeFeatures → ℚ → ℚ
  impact : ExchangeFeatures → ℚ → ℚ

/-- Python dict insertion: overwrite the value in place if the key exists,
otherwise append at the end (insertion order preserved). -/
def dictInsert (d : List (String × ℚ)) (k : String) (v : ℚ) : List (String × ℚ) :=
  if d.any (fun p => p.1 = k) then d.map (fun p => if p.1 = k then (k, v) else p)
  else d ++ [(k, v)]

/-- Composite score of one exchange inside
`MLRoutingEngine.calculate_optimal_routing` (routing_model.py lines
124-133): `0.3*success_prob + 0.2*liquidity_score + 0.2*(1 - impact*100)
+ 0.15*(1 - fee_percentage*100) + 0.15*(1 - tanh(latency_ms/20))`. -/
def compositeScore (tanh : ℚ → ℚ) (oracle : Oracle) (order_size : ℚ)
    (ex : ExchangeFeatures) : ℚ :=
  let success_prob := oracle.successProb ex order_size
  let impact := oracle.impact ex order_size
  0.3 * success_prob + 0.2 * ex.liquidity_score + 0.2 * (1 - impact * 100)
    + 0.15 * (1 - ex.fee_percentage * 100) + 0.15 * (1 - tanh (ex.latency_ms / 20))

/-- The `routing_scores` dict built by the loop of
`calculate_optimal_routing` (lines 111-135). -/
def routingScores (tanh : ℚ → ℚ) (oracle : Oracle) (order_size : ℚ)
    (exchanges : List ExchangeFeatures) : List (String × ℚ) :=
  exchanges.foldl
    (fun d ex => dictInsert d ex.exchange_id (compositeScore tanh oracle order_size ex)) []

/-- The value `total_score = sum(routing_scores.values())` (line 137). -/
def totalScore (tanh : ℚ → ℚ) (oracle : Oracle) (order_size : ℚ)
    (exchanges : List ExchangeFeatures) : ℚ :=
  ((routingScores tanh oracle order_size exchanges).map Prod.snd).sum

/-- An observable numpy float64 value: a finite float (idealised as an
exact rational) or one of the non-finite values inf, -inf, nan that arise
from dividing by a zero total. -/
inductive PyFloat where
  | finite (x : ℚ)
  | posinf
  | neginf
  | nan
deriving DecidableEq

/-- IEEE comparison `v > 0`: false for nan (all nan comparisons are false)
and for -inf, true for +inf. -/
def PyFloat.gt0 : PyFloat → Bool
  | .finite x => decide (0 < x)
  | .posinf => true
  | .neginf => false
  | .nan => false

/-- Whether the value is a finite float. -/
def PyFloat.isFinite : PyFloat → Bool
  | .finite _ => true
  | _ => false

/-- The IEEE float64 value of `(s / 0.0) * q` for finite `s` and `q`.  The
zero total here is +0.0 (it is a sum of finite float64 terms, and IEEE
addition never produces -0.0 from finite cancellation), so `s/0.0` is nan
when s = 0 and an infinity with the sign of s otherwise; multiplying by q
keeps nan, flips the infinity's sign when q < 0, and gives nan (inf times
zero) when q = 0. -/
def divZeroTimes (s q : ℚ) : PyFloat :=
  if s = 0 then .nan
  else if 0 < s then
    (if 0 < q then .posinf else if q < 0 then .neginf else .nan)
  else
    (if 0 < q then .neginf else if q < 0 then .posinf else .nan)

/-- IEEE division of a float64 by a finite float64, used for the
confidence ratio `allocation / order.quantity`. -/
def PyFloat.divQ : PyFloat → ℚ → PyFloat
  | .finite x, q =>
    if q = 0 then (if x = 0 then .nan else if 0 < x then .posinf else .neginf)
    else .finite (x / q)
  | .posinf, q => if q < 0 then .neginf else .posinf
  | .neginf, q => if q < 0 then .posinf else .neginf
  | .nan, _ => .nan

/-- `MLRoutingEngine.calculate_optimal_routing` (lines 109-143).  The dict
comprehension divides each score by `total_score`; every score is an
np.float64 (the `np.tanh` term makes it one), so when the total is zero the
divisions do not raise — numpy only emits a RuntimeWarning and yields
inf, -inf or nan — and the function still returns a dict, every allocation
non-finite.  With an empty exchange list the comprehension is empty and the
empty dict is returned.  There is no error path: no `NoViableVenue` and no
possible `ZeroDivisionError` anywhere in the source. -/
def calculate_optimal_routing (tanh : ℚ → ℚ) (oracle : Oracle) (order_size : ℚ)
    (exchanges : List ExchangeFeatures) : List (String × PyFloat) :=
  let routing_scores := routingScores tanh oracle order_size exchanges
  let total_score := ((routing_scores).map Prod.snd).sum
  routing_scores.map (fun p =>
    (p.1, if total_score = 0 then divZeroTimes p.2 order_size
          else .finite (p.2 / total_score * order_size)))

/-- Composite score exactly as the specification document words it
(section 4.3): `0.3*success_prob + 0.2*liquidity + 0.2*(1 - impact)
+ 0.15*(1 - fee) + 0.15*(1 - tanh(latency/20))`.  Stated for comparison
against `compositeScore`, the score the source actually computes. -/
def specCompositeScore (tanh : ℚ → ℚ) (oracle : Oracle) (order_size : ℚ)
    (ex : ExchangeFeatures) : ℚ :=
  let success_prob := oracle.successProb ex order_size
  let impact := oracle.impact ex order_size
  0.3 * success_prob + 0.2 * ex.liquidity_score + 0.2 * (1 - impact)
    + 0.15 * (1 - ex.fee_percentage) + 0.15 * (1 - tanh (ex.latency_ms / 20))

/-- Stand-in for `np.tanh` in concrete evaluations; all concrete inputs use
latency 0 and `tanh 0 = 0` holds for the real tanh. -/
def tanh0 : ℚ → ℚ := fun _ => 0

/-- Concrete oracle for evaluations: success probability 1/2 everywhere,
market impact 1/20 on exchange "B" and 0 elsewhere (both inside the spec's
oracle contract: probability in [0,1], impact in [0,1)). -/
def oracleCex : Oracle :=
  { successProb := fun _ _ => 1/2
    impact := fun ex _ => if ex.exchange_id = "B" then 1/20 else 0 }

/-- Venue-feature snapshot "A": latency 0, liquidity 1/2, zero fee. -/
def exA : ExchangeFeatures :=
  { exchange_id := "A", latency_ms := 0, liquidity_score := 1/2, spread := 0
    volume_imbalance := 0, historical_fill_rate := 0, fee_percentage := 0
    market_impact_estimate := 0 }

/-- Venue-feature snapshot "B": same as "A" but the oracle assigns it
market impact 1/20, making its composite score negative. -/
def exB : ExchangeFeatures :=
  { exchange_id := "B", latency_ms := 0, liquidity_score := 1/2, spread := 0
    volume_imbalance := 0, historical_fill_rate := 0, fee_percentage := 0
    market_impact_estimate := 0 }

/-- Oracle whose outputs make `exA`'s composite score exactly zero:
probability 0, impact 7/400, with liquidity forced to 0 by using `exZ`. -/
def oracleZero : Oracle :=
  { successProb := fun _ _ => 0
    impact := fun _ _ => 7/400 }

/-- Venue-feature snapshot with zero liquidity and fee 1/100, used with
`oracleZero` to produce a composite score of exactly zero. -/
def exZ : ExchangeFeatures :=
  { exchange_id := "Z", latency_ms := 0, liquidity_score := 0, spread := 0
    volume_imbalance := 0, historical_fill_rate := 0, fee_percentage := 1/100
    market_impact_estimate := 0 }

/-- Association lookup, modelling Python `key in dict` plus `dict[key]` on
a dict kept as an insertion-ordered association list. -/
def assocFind {α : Type} (k : String) : List (String × α) → Option α
  | [] => none
  | p :: rest => if p.1 = k then some p.2 else assocFind k rest

/-- The `Order` dataclass of exchange_service.py. -/
structure Order where
  order_id : String
  symbol : String
  quantity : ℚ
  order_type : String
  price : Option ℚ
  side : String
  timestamp : Int
deriving DecidableEq

/-- The `OrderBook` dataclass of exchange_service.py: bid and ask ladders
as (price, volume) pairs.  The wall-clock `last_update` field is omitted:
nothing downstream of the claims reads it. -/
structure OrderBook where
  bids : List (ℚ × ℚ)
  asks : List (ℚ × ℚ)
deriving DecidableEq

/-- State of one `ExchangeSimulator` (exchange_service.py lines 27-39):
order books per symbol, the `executed_orders` list (only its length is ever
read, as `total_executed`), liquidity factor, fee rate and active flag. -/
structure ExchangeSimulator where
  exchange_id : String
  base_latency : ℚ
  order_books : List (String × OrderBook)
  executed_orders : List String
  liquidity_factor : ℚ
  fee_percentage : ℚ
  is_active : Bool
deriving DecidableEq

/-- The dict returned by `ExchangeSimulator.execute_order`.  A failure dict
carries only `success` and `reason`; the aggregation reads the other keys
with `r.get(key, 0)`, so failures are modelled with zero in those fields. -/
structure ExecResult where
  success : Bool
  reason : Option String
  executed_price : ℚ
  executed_quantity : ℚ
  fee : ℚ
  latency_ms : ℚ
deriving DecidableEq

/-- `ExchangeSimulator.execute_order` (exchange_service.py lines 65-93).
Its first statement, line 67, is `latency = self.base_latency +
random.exponential(2)`; the stdlib `random` module has no `exponential`
(numpy's `np.random.exponential` was evidently intended — numpy is imported
as `np` in the file and the spec calls for an exponential(mean 2ms)
sample), so every call raises `AttributeError` before the symbol check, the
order-type branch or any book access.  Lines 70-93 are unreachable; they
are modelled separately as `execute_order_body`. -/
def execute_order (sim : ExchangeSimulator) (order : Order) :
    Except String (ExecResult × ExchangeSimulator) :=
  .error "AttributeError"

/-- The unreachable remainder of `execute_order` (lines 70-93), i.e. the
execution logic after the fatal line 67, modelled on its own so the
documented intent can be compared against it.  Unknown symbol fails with
"Symbol not supported"; a MARKET order takes the first level of the order's
side — price `asks[0][0]` for BUY else `bids[0][0]`, quantity
`min(requested, top volume)` — raising IndexError if that side is empty;
any non-MARKET type fails with "Limit orders simplified".  Fee =
executed_quantity * executed_price * fee_percentage.  Nothing in it mutates
the simulator (in particular `executed_orders` is never appended to), so
the returned state is the input state. -/
def execute_order_body (sim : ExchangeSimulator) (latency : ℚ) (order : Order) :
    Except String (ExecResult × ExchangeSimulator) :=
  match assocFind order.symbol sim.order_books with
  | none => .ok ({ success := false, reason := some "Symbol not supported",
                   executed_price := 0, executed_quantity := 0, fee := 0, latency_ms := 0 }, sim)
  | some book =>
    if order.order_type = "MARKET" then
      match (if order.side = "BUY" then book.asks else book.bids) with
      | [] => .error "IndexError"
      | top :: _ =>
        let executed_price := top.1
        let executed_quantity := min order.quantity top.2
        let fee := executed_quantity * executed_price * sim.fee_percentage
        .ok ({ success := true, reason := none, executed_price := executed_price,
               executed_quantity := executed_quantity, fee := fee, latency_ms := latency }, sim)
    else
      .ok ({ success := false, reason := some "Limit orders simplified",
             executed_price := 0, executed_quantity := 0, fee := 0, latency_ms := 0 }, sim)

/-- The non-empty dict returned by `get_market_data` (lines 95-110);
`timestamp` is omitted (wall clock, read by nothing downstream). -/
structure MarketData where
  bid_price : ℚ
  ask_price : ℚ
  bid_volume : ℚ
  ask_volume : ℚ
  spread : ℚ
deriving DecidableEq

/-- First price of a ladder, 0 when empty (`book.bids[0][0] if book.bids
else 0`). -/
def headPrice (l : List (ℚ × ℚ)) : ℚ :=
  match l with
  | [] => 0
  | p :: _ => p.1

/-- First volume of a ladder, 0 when empty. -/
def headVolume (l : List (ℚ × ℚ)) : ℚ :=
  match l with
  | [] => 0
  | p :: _ => p.2

/-- `ExchangeSimulator.get_market_data`: `none` models the empty dict
returned for an unknown symbol (falsy in the router's `if not market_data`
check). -/
def get_market_data (sim : ExchangeSimulator) (symbol : String) : Option MarketData :=
  match assocFind symbol sim.order_books with
  | none => none
  | some book =>
    some { bid_price := headPrice book.bids, ask_price := headPrice book.asks
           bid_volume := headVolume book.bids, ask_volume := headVolume book.asks
           spread := if book.bids ≠ [] ∧ book.asks ≠ [] then
             headPrice book.asks - headPrice book.bids else 0 }

/-- The dict returned by `get_exchange_status` (lines 112-121);
`total_executed` is `len(self.executed_orders)`. -/
structure ExchangeStatus where
  exchange_id : String
  is_active : Bool
  latency_ms : ℚ
  liquidity_score : ℚ
  fee_percentage : ℚ
  total_executed : Nat
deriving DecidableEq

/-- `ExchangeSimulator.get_exchange_status`. -/
def get_exchange_status (sim : ExchangeSimulator) : ExchangeStatus :=
  { exchange_id := sim.exchange_id, is_active := sim.is_active
    latency_ms := sim.base_latency, liquidity_score := sim.liquidity_factor
    fee_percentage := sim.fee_percentage, total_executed := sim.executed_orders.length }

/-- One entry of `routing_decisions` (routing_service.py lines 103-108);
its quantities are float64 values, non-finite when the zero-total division
occurred.  The `reason` string is a percent rendering of the same
confidence ratio and is omitted. -/
structure RoutingDecision where
  exchange_id : String
  allocated_quantity : PyFloat
  confidence_score : PyFloat
deriving DecidableEq

/-- Result dict of one `route_order` cycle.  The early "No active
exchanges" return (lines 70-75) produces a dict with only `order_id`,
`success` and `reason` — in particular no `routing_decisions` key — so it
is a distinct shape from the full result of lines 134-143. -/
inductive RouteResult where
  | failure (order_id : String) (reason : String)
  | completed (order_id : String) (success : Bool) (total_executed : ℚ)
      (average_price : ℚ) (total_fees : ℚ) (execution_time_ms : ℚ)
      (routing_decisions : List RoutingDecision) (fill_rate : ℚ)
deriving DecidableEq

/-- The `success` key: present and False on the early-failure dict. -/
def RouteResult.success : RouteResult → Bool
  | .failure _ _ => false
  | .completed _ s _ _ _ _ _ _ => s

/-- Lookup of the `routing_decisions` key: `none` models its absence from
the early-failure dict. -/
def RouteResult.routingDecisions? : RouteResult → Option (List RoutingDecision)
  | .failure _ _ => none
  | .completed _ _ _ _ _ _ rd _ => some rd

/-- Lookup of the `reason` key (present only on the early-failure dict). -/
def RouteResult.reason? : RouteResult → Option String
  | .failure _ r => some r
  | .completed _ _ _ _ _ _ _ _ => none

/-- The `total_executed` key (0 on the early-failure dict, which is never
stored in history). -/
def RouteResult.totalExecuted : RouteResult → ℚ
  | .failure _ _ => 0
  | .completed _ _ te _ _ _ _ _ => te

/-- The `execution_time_ms` key. -/
def RouteResult.executionTime : RouteResult → ℚ
  | .failure _ _ => 0
  | .completed _ _ _ _ _ et _ _ => et

/-- The `fill_rate` key. -/
def RouteResult.fillRate : RouteResult → ℚ
  | .failure _ _ => 0
  | .completed _ _ _ _ _ _ _ fr => fr

/-- `SmartOrderRouter` state (routing_service.py lines 19-24): the venue
dict and the three fields mutated at the end of each cycle. -/
structure SmartOrderRouter where
  exchanges : List (String × ExchangeSimulator)
  routing_history : List RouteResult
  total_volume_routed : ℚ
  total_orders_routed : Nat
deriving DecidableEq

/-- Feature construction for one venue in the collection loop of
`route_order` (lines 48-68): skip inactive venues and venues whose market
data is empty; otherwise latency/liquidity/fee come from the status dict,
spread from market data, `historical_fill_rate = 0.95` and
`market_impact_estimate = 0.001` are hard-coded, and `volume_imbalance` is
a fresh random draw, modelled by the explicit function `imb`. -/
def featureOf (imb : String → ℚ) (symbol : String)
    (p : String × ExchangeSimulator) : Option ExchangeFeatures :=
  if p.2.is_active = false then none
  else
    match get_market_data p.2 symbol with
    | none => none
    | some md =>
      let status := get_exchange_status p.2
      some { exchange_id := p.1, latency_ms := status.latency_ms
             liquidity_score := status.liquidity_score, spread := md.spread
             volume_imbalance := imb p.1, historical_fill_rate := 0.95
             fee_percentage := status.fee_percentage, market_impact_estimate := 0.001 }

/-- The `exchange_features` list collected by `route_order`. -/
def collectFeatures (imb : String → ℚ) (router : SmartOrderRouter)
    (symbol : String) : List ExchangeFeatures :=
  router.exchanges.filterMap (featureOf imb symbol)

/-- The dispatch loop and fan-in of `route_order` (lines 84-111): for each
venue with a positive allocation the loop looks the venue up
(`self.exchanges[ex_id]` — KeyError at the first missing id), constructs
the child order (a plain dataclass, lines 89-97, with no effects) and
schedules `execute_order`; `asyncio.gather` then runs the children, and
the very first statement of every `execute_order` body raises
`AttributeError` (line 67 of exchange_service.py), which gather
propagates.  So the gathered `execution_results` list is `[]` when nothing
was dispatched, and otherwise the cycle raises: KeyError if some venue id
is missing, else AttributeError.  The child orders are never read by
anything that runs. -/
def execAll (exchanges : List (String × ExchangeSimulator))
    (dispatched : List (String × PyFloat)) : Except String (List ExecResult) :=
  match dispatched.find? (fun p => (assocFind p.1 exchanges).isNone) with
  | some _ => .error "KeyError"
  | none => if dispatched = [] then .ok [] else .error "AttributeError"

/-- `total_executed` (lines 114-118): executed quantity summed over the
results with `success=True` only. -/
def totalExecutedOf (rs : List ExecResult) : ℚ :=
  ((rs.filter (fun r => r.success)).map (fun r => r.executed_quantity)).sum

/-- `total_fees` (lines 120-124). -/
def totalFeesOf (rs : List ExecResult) : ℚ :=
  ((rs.filter (fun r => r.success)).map (fun r => r.fee)).sum

/-- `weighted_price` (lines 126-130). -/
def weightedPriceOf (rs : List ExecResult) : ℚ :=
  ((rs.filter (fun r => r.success)).map (fun r => r.executed_price * r.executed_quantity)).sum

/-- `avg_price = weighted_price / total_executed if total_executed > 0 else 0`
(line 132). -/
def avgPriceOf (rs : List ExecResult) : ℚ :=
  if 0 < totalExecutedOf rs then weightedPriceOf rs / totalExecutedOf rs else 0

/-- `SmartOrderRouter.route_order` (routing_service.py lines 42-150).
Randomness (the volume imbalance draws) and the wall clock are explicit
parameters `imb`, `elapsed`; the ML engine is the abstract `tanh`/`oracle`
pair.  An empty feature set returns the short failure dict and leaves the
router untouched.  Otherwise the allocation is computed (it cannot raise),
the venues whose allocation compares greater than 0 under IEEE rules are
dispatched, and the fan-in either raises — any dispatched child hits
`execute_order`'s unconditional AttributeError, propagated as
`Except.error` with the state unchanged, since the mutations all happen
after aggregation — or yields the empty result list, which is aggregated
and the counters/history updated. -/
def route_order (tanh : ℚ → ℚ) (oracle : Oracle) (imb : String → ℚ)
    (elapsed : ℚ) (router : SmartOrderRouter) (order : Order) :
    Except String (RouteResult × SmartOrderRouter) :=
  let exchange_features := collectFeatures imb router order.symbol
  if exchange_features = [] then
    .ok (.failure order.order_id "No active exchanges", router)
  else
    let allocations := calculate_optimal_routing tanh oracle order.quantity exchange_features
    let dispatched := allocations.filter (fun p => p.2.gt0)
    let routing_decisions : List RoutingDecision := dispatched.map (fun p =>
      { exchange_id := p.1, allocated_quantity := p.2
        confidence_score := p.2.divQ order.quantity })
    match execAll router.exchanges dispatched with
    | .error e => .error e
    | .ok results =>
      let total_executed := totalExecutedOf results
      let result := RouteResult.completed order.order_id (decide (0 < total_executed))
        total_executed (avgPriceOf results) (totalFeesOf results) elapsed routing_decisions
        (if 0 < order.quantity then total_executed / order.quantity else 0)
      .ok (result, { router with
        total_volume_routed := router.total_volume_routed + total_executed
        total_orders_routed := router.total_orders_routed + 1
        routing_history := router.routing_history ++ [result] })

/-- The dict returned by `get_routing_statistics`: the empty-history shape
carries a message and zeros (no rate/time keys); `exchange_statistics` is
the hard-coded empty dict in the source and is omitted. -/
structure RoutingStats where
  message : Option String
  total_orders : Nat
  total_volume : ℚ
  success_rate : Option ℚ
  avg_execution_time_ms : Option ℚ
deriving DecidableEq

/-- `SmartOrderRouter.get_routing_statistics` (lines 152-169). -/
def get_routing_statistics (r : SmartOrderRouter) : RoutingStats :=
  if r.routing_history = [] then
    { message := some "No routing history available", total_orders := 0
      total_volume := 0, success_rate := none, avg_execution_time_ms := none }
  else
    { message := none, total_orders := r.total_orders_routed
      total_volume := r.total_volume_routed
      success_rate := some (((r.routing_history.filter (fun x => x.success)).length : ℚ)
        / (r.routing_history.length : ℚ))
      avg_execution_time_ms := some ((r.routing_history.map RouteResult.executionTime).sum
        / (r.routing_history.length : ℚ)) }

/-- Implicit invariant of C10: the two counters agree with the retained
history. -/
def routerInvariant (r : SmartOrderRouter) : Prop :=
  r.total_orders_routed = r.routing_history.length ∧
  r.total_volume_routed = (r.routing_history.map RouteResult.totalExecuted).sum

/-- Concrete order book for venue "A": best bid (99,200), best ask (101,200). -/
def bookA : OrderBook :=
  { bids := [(99, 200)], asks := [(101, 200)] }

/-- Concrete order book for venue "B": best bid (98,200), best ask (102,200). -/
def bookB : OrderBook :=
  { bids := [(98, 200)], asks := [(102, 200)] }

/-- Concrete active venue "A": zero latency and fee, liquidity 1/2. -/
def simA : ExchangeSimulator :=
  { exchange_id := "A", base_latency := 0, order_books := [("AAPL", bookA)]
    executed_orders := [], liquidity_factor := 1/2, fee_percentage := 0
    is_active := true }

/-- Concrete active venue "B", same profile as "A" with book `bookB`. -/
def simB : ExchangeSimulator :=
  { exchange_id := "B", base_latency := 0, order_books := [("AAPL", bookB)]
    executed_orders := [], liquidity_factor := 1/2, fee_percentage := 0
    is_active := true }

/-- Concrete inactive venue "N". -/
def simN : ExchangeSimulator :=
  { exchange_id := "N", base_latency := 0, order_books := [("AAPL", bookA)]
    executed_orders := [], liquidity_factor := 1/2, fee_percentage := 0
    is_active := false }

/-- Fresh router over the two active venues "A" and "B". -/
def routerAB : SmartOrderRouter :=
  { exchanges := [("A", simA), ("B", simB)], routing_history := []
    total_volume_routed := 0, total_orders_routed := 0 }

/-- Fresh router whose only venue is inactive. -/
def routerN : SmartOrderRouter :=
  { exchanges := [("N", simN)], routing_history := []
    total_volume_routed := 0, total_orders_routed := 0 }

/-- Concrete parent MARKET BUY order for 100 shares of AAPL. -/
def orderM : Order :=
  { order_id := "O1", symbol := "AAPL", quantity := 100, order_type := "MARKET"
    price := none, side := "BUY", timestamp := 0 }

/-- Concrete LIMIT order. -/
def orderL : Order :=
  { order_id := "O2", symbol := "AAPL", quantity := 10, order_type := "LIMIT"
    price := some 100, side := "BUY", timestamp := 0 }

/-- Concrete MARKET SELL order for 300 shares (more than the top bid
volume of 200). -/
def orderS : Order :=
  { order_id := "O3", symbol := "AAPL", quantity := 300, order_type := "MARKET"
    price := none, side := "SELL", timestamp := 0 }

/-- Zero volume-imbalance draws for concrete runs. -/
def imb0 : String → ℚ := fun _ => 0

/-- Degenerate oracle: probability 0 and impact 3/100 everywhere, which
at liquidity 1/2, fee 0 and latency 0 makes the composite score exactly
0 + 0.1 + 0.2*(1-3) + 0.15 + 0.15 = 0 for both concrete venues. -/
def oracleDeg : Oracle :=
  { successProb := fun _ _ => 0
    impact := fun _ _ => 3/100 }

/-- Concrete successful execution at price 100 for 10 shares. -/
def resP : ExecResult :=
  { success := true, reason := none, executed_price := 100
    executed_quantity := 10, fee := 1, latency_ms := 1 }

/-- Concrete successful execution at price 110 for 30 shares. -/
def resQ : ExecResult :=
  { success := true, reason := none, executed_price := 110
    executed_quantity := 30, fee := 2, latency_ms := 1 }

/-- Concrete failed execution. -/
def resF : ExecResult :=
  { success := false, reason := some "Symbol not supported", executed_price := 0
    executed_quantity := 0, fee := 0, latency_ms := 0 }

/-- Feature snapshot that `route_order` collects for venue "A" of
`routerAB` (spread 101 - 99 = 2). -/
def featA : ExchangeFeatures :=
  { exchange_id := "A", latency_ms := 0, liquidity_score := 1/2, spread := 2
    volume_imbalance := 0, historical_fill_rate := 19/20, fee_percentage := 0
    market_impact_estimate := 1/1000 }

/-- Feature snapshot that `route_order` collects for venue "B" of
`routerAB` (spread 102 - 98 = 4). -/
def featB : ExchangeFeatures :=
  { exchange_id := "B", latency_ms := 0, liquidity_score := 1/2, spread := 4
    volume_imbalance := 0, historical_fill_rate := 19/20, fee_percentage := 0
    market_impact_estimate := 1/1000 }

/-- Routing result of the degenerate cycle under `oracleDeg`: both scores
are 0, the zero total turns both allocations into nan, nan compares false
against 0, so nothing is dispatched and the cycle completes with no
executions: success false, total 0, fill rate 0, no decisions. -/
def resDeg : RouteResult :=
  RouteResult.completed "O1" false 0 0 0 5 [] 0

/-- Router state after the degenerate cycle: one order routed, volume
unchanged, the result appended. -/
def routerABDeg : SmartOrderRouter :=
  { exchanges := [("A", simA), ("B", simB)], routing_history := [resDeg]
    total_volume_routed := 0, total_orders_routed := 1 }

-- Helper lemmas

/-- String disequality fact used to reduce dict lookups in concrete runs. -/
theorem strAB : (("A" : String) = "B") = False := by
  simp

/-- String disequality fact for the order-type check. -/
theorem strLM : (("LIMIT" : String) = "MARKET") = False := by
  simp

/-- String disequality fact for the side check. -/
theorem strSB : (("SELL" : String) = "BUY") = False := by
  simp

/-- Summing the allocated quantities distributes over the score list. -/
theorem sum_map_div_mul (l : List (String × ℚ)) (t q : ℚ) :
    ((l.map (fun p => (p.1, p.2 / t * q))).map Prod.snd).sum
      = (l.map Prod.snd).sum / t * q := by
  induction l with
  | nil => simp
  | cons a l ih =>
    simp only [List.map_cons, List.sum_cons, ih, add_div, add_mul]

/-- Inserting a fresh key into a dict appends it. -/
theorem dictInsert_fresh (d : List (String × ℚ)) (k : String) (v : ℚ)
    (h : ∀ p ∈ d, p.1 ≠ k) : dictInsert d k v = d ++ [(k, v)] := by
  unfold dictInsert
  rw [if_neg]
  intro hc
  simp only [List.any_eq_true, decide_eq_true_eq] at hc
  obtain ⟨p, hp, hk⟩ := hc
  exact h p hp hk

/-- With pairwise-distinct exchange ids the `routing_scores` dict is just the
score list in input order. -/
theorem routingScores_eq_map (tanh : ℚ → ℚ) (oracle : Oracle) (q : ℚ)
    (exchanges : List ExchangeFeatures)
    (hn : (exchanges.map ExchangeFeatures.exchange_id).Nodup) :
    routingScores tanh oracle q exchanges
      = exchanges.map (fun ex => (ex.exchange_id, compositeScore tanh oracle q ex)) := by
  suffices h : ∀ (l : List ExchangeFeatures) (acc : List (String × ℚ)),
      (l.map ExchangeFeatures.exchange_id).Nodup →
      (∀ p ∈ acc, ∀ ex ∈ l, p.1 ≠ ex.exchange_id) →
      l.foldl (fun d ex => dictInsert d ex.exchange_id (compositeScore tanh oracle q ex)) acc
        = acc ++ l.map (fun ex => (ex.exchange_id, compositeScore tanh oracle q ex)) by
    simpa using h exchanges [] hn (by simp)
  intro l
  induction l with
  | nil => intro acc _ _; simp
  | cons e l ih =>
    intro acc hnd hfresh
    simp only [List.map_cons, List.nodup_cons] at hnd
    simp only [List.foldl_cons]
    rw [dictInsert_fresh acc e.exchange_id _ (fun p hp => hfresh p hp e (by simp))]
    rw [ih (acc ++ [(e.exchange_id, compositeScore tanh oracle q e)]) hnd.2 ?fresh]
    · simp
    case fresh =>
      intro p hp ex hex
      rcases List.mem_append.mp hp with h1 | h2
      · exact hfresh p h1 ex (List.mem_cons_of_mem _ hex)
      · have hpe : p = (e.exchange_id, compositeScore tanh oracle q e) := by
          simpa using h2
        subst hpe
        intro hcontra
        exact hnd.1 (by
          simp only at hcontra
          rw [hcontra]
          exact List.mem_map.mpr ⟨ex, hex, rfl⟩)

/-- A `dictInsert` result is never the empty list. -/
theorem dictInsert_ne_nil (d : List (String × ℚ)) (k : String) (v : ℚ) :
    dictInsert d k v ≠ [] := by
  unfold dictInsert
  by_cases h : d.any (fun p => p.1 = k)
  · rw [if_pos h]
    intro hm
    have hd : d = [] := by simpa using congrArg List.length hm
    subst hd
    simp at h
  · rw [if_neg h]
    simp

/-- The routing-scores dict of a non-empty exchange list is non-empty. -/
theorem routingScores_ne_nil (tanh : ℚ → ℚ) (oracle : Oracle) (q : ℚ)
    (exchanges : List ExchangeFeatures) (h : exchanges ≠ []) :
    routingScores tanh oracle q exchanges ≠ [] := by
  unfold routingScores
  suffices hgen : ∀ (l : List ExchangeFeatures) (acc : List (String × ℚ)),
      l ≠ [] ∨ acc ≠ [] →
      l.foldl (fun d ex => dictInsert d ex.exchange_id (compositeScore tanh oracle q ex)) acc ≠ [] by
    exact hgen exchanges [] (Or.inl h)
  intro l
  induction l with
  | nil =>
    intro acc hc
    rcases hc with hc | hc
    · exact absurd rfl hc
    · simpa using hc
  | cons e l ih =>
    intro acc _
    simp only [List.foldl_cons]
    exact ih _ (by
      by_cases hl : l = []
      · exact Or.inr (dictInsert_ne_nil _ _ _)
      · exact Or.inl hl)

-- C1

/-- C1 counterexample: with order size 100 and the two venue snapshots
`exA`, `exB` (oracle outputs inside the spec's contract), the composite
scores are 3/4 and -1/4 — a positive sum — yet the returned allocation maps
venue "B" to -50 < 0, refuting "each venue is allocated a quantity >= 0". -/
theorem C1_counterexample :
    (0 : ℚ) < 100 ∧ [exA, exB] ≠ [] ∧
    0 < ([exA, exB].map (compositeScore tanh0 oracleCex 100)).sum ∧
    calculate_optimal_routing tanh0 oracleCex 100 [exA, exB]
      = [("A", PyFloat.finite 150), ("B", PyFloat.finite (-50))] ∧
    ¬ (∀ p ∈ [(("A" : String), (150 : ℚ)), ("B", -50)], 0 ≤ p.2) := by
  refine ⟨by norm_num, by simp, ?_, ?_, ?_⟩
  · norm_num [compositeScore, oracleCex, exA, exB, tanh0, strAB]
  · norm_num [calculate_optimal_routing, routingScores, dictInsert, compositeScore,
      oracleCex, exA, exB, tanh0, strAB, divZeroTimes]
  · intro h
    have hb := h ("B", -50) (by simp)
    norm_num at hb

/-- C1 amended: for order size q > 0 and a non-empty list of venues with
pairwise-distinct ids whose composite scores have a positive sum,
`calculate_optimal_routing` returns an allocation of finite float values
whose quantities sum to exactly q (hence within any relative tolerance);
every allocated quantity is >= 0 provided every composite score is >= 0
(without that extra hypothesis a negative score yields a negative
allocation, see the counterexample). -/
theorem C1_allocation (tanh : ℚ → ℚ) (oracle : Oracle) (q : ℚ)
    (exchanges : List ExchangeFeatures) (hq : 0 < q) (hne : exchanges ≠ [])
    (hnd : (exchanges.map ExchangeFeatures.exchange_id).Nodup)
    (hpos : 0 < (exchanges.map (compositeScore tanh oracle q)).sum) :
    ∃ l : List (String × ℚ),
      calculate_optimal_routing tanh oracle q exchanges
        = l.map (fun p => (p.1, PyFloat.finite p.2)) ∧
      (l.map Prod.snd).sum = q ∧
      ((∀ ex ∈ exchanges, 0 ≤ compositeScore tanh oracle q ex) → ∀ p ∈ l, 0 ≤ p.2) := by
  have hrs := routingScores_eq_map tanh oracle q exchanges hnd
  have hsnd : ((routingScores tanh oracle q exchanges).map Prod.snd).sum
      = (exchanges.map (compositeScore tanh oracle q)).sum := by
    rw [hrs, List.map_map]
    rfl
  have ht : ((routingScores tanh oracle q exchanges).map Prod.snd).sum ≠ 0 := by
    rw [hsnd]; exact ne_of_gt hpos
  refine ⟨(routingScores tanh oracle q exchanges).map
      (fun p => (p.1, p.2 / ((routingScores tanh oracle q exchanges).map Prod.snd).sum * q)),
    ?_, ?_, ?_⟩
  · unfold calculate_optimal_routing
    simp only [List.map_map, ht, if_false]
    rfl
  · rw [sum_map_div_mul, div_self ht, one_mul]
  · intro hnn p hp
    obtain ⟨r, hr, hpr⟩ := List.mem_map.mp hp
    obtain ⟨ex, hex, hexr⟩ := List.mem_map.mp (by rw [hrs] at hr; exact hr)
    have hscore : 0 ≤ r.2 := by
      rw [← hexr]
      exact hnn ex hex
    rw [← hpr]
    have htpos : 0 < ((routingScores tanh oracle q exchanges).map Prod.snd).sum := by
      rw [hsnd]; exact hpos
    exact mul_nonneg (div_nonneg hscore (le_of_lt htpos)) (le_of_lt hq)

/-- C1 witness: the amended theorem applied to order size 100 and the
single venue `exA` (score 3/4 > 0). -/
theorem C1_allocation_witness :
    (0 : ℚ) < 100 ∧ [exA] ≠ [] ∧
    (∃ l : List (String × ℚ),
      calculate_optimal_routing tanh0 oracleCex 100 [exA]
        = l.map (fun p => (p.1, PyFloat.finite p.2)) ∧
      (l.map Prod.snd).sum = 100 ∧
      ((∀ ex ∈ [exA], 0 ≤ compositeScore tanh0 oracleCex 100 ex) → ∀ p ∈ l, 0 ≤ p.2)) := by
  refine ⟨by norm_num, by simp, C1_allocation tanh0 oracleCex 100 [exA] (by norm_num)
    (by simp) (by simp) ?_⟩
  norm_num [compositeScore, oracleCex, exA, tanh0, strAB]

-- C2

/-- The zero-total division never yields a finite float: inf, -inf or nan
in every branch. -/
theorem divZeroTimes_not_finite (s q : ℚ) : (divZeroTimes s q).isFinite = false := by
  unfold divZeroTimes
  split
  · rfl
  · split
    · split
      · rfl
      · split <;> rfl
    · split
      · rfl
      · split <;> rfl

/-- C2 counterexample: on an empty venue list `calculate_optimal_routing`
does not fail at all — it silently returns the empty allocation dict, so
there is no `NoViableVenue` error (no such error exists anywhere in the
source). -/
theorem C2_counterexample :
    calculate_optimal_routing tanh0 oracleCex 100 [] = [] := by
  simp [calculate_optimal_routing, routingScores]

/-- C2 amended: the engine never fails at all.  An empty venue list yields
the empty allocation dict; a non-empty venue list whose composite-score
total is 0 triggers the float64 division by zero, which does not raise —
numpy emits a RuntimeWarning — but makes every returned allocation
non-finite (inf or nan); a non-zero total, even a negative one, yields the
finite allocations score/total*size.  No `NoViableVenue` error exists in
the code and no `ZeroDivisionError` is possible. -/
theorem C2_division (tanh : ℚ → ℚ) (oracle : Oracle) (q : ℚ)
    (exchanges : List ExchangeFeatures) :
    (calculate_optimal_routing tanh oracle q [] = []) ∧
    (exchanges ≠ [] → totalScore tanh oracle q exchanges = 0 →
      calculate_optimal_routing tanh oracle q exchanges ≠ [] ∧
      ∀ p ∈ calculate_optimal_routing tanh oracle q exchanges, p.2.isFinite = false) ∧
    (totalScore tanh oracle q exchanges ≠ 0 →
      calculate_optimal_routing tanh oracle q exchanges
        = (routingScores tanh oracle q exchanges).map
            (fun p => (p.1, PyFloat.finite
              (p.2 / totalScore tanh oracle q exchanges * q)))) := by
  refine ⟨by simp [calculate_optimal_routing, routingScores], ?_, ?_⟩
  · intro hne hzero
    have hzero' : ((routingScores tanh oracle q exchanges).map Prod.snd).sum = 0 := hzero
    constructor
    · unfold calculate_optimal_routing
      intro hmap
      exact routingScores_ne_nil tanh oracle q exchanges hne (List.map_eq_nil_iff.mp hmap)
    · intro p hp
      unfold calculate_optimal_routing at hp
      obtain ⟨r, hr, hrp⟩ := List.mem_map.mp hp
      rw [← hrp]
      simp only [hzero', if_true]
      exact divZeroTimes_not_finite r.2 q
  · intro hnz
    have hnz' : ((routingScores tanh oracle q exchanges).map Prod.snd).sum ≠ 0 := hnz
    unfold calculate_optimal_routing
    simp only [hnz', if_false]
    rfl

/-- C2 witness: the amended theorem applied to the single venue `exZ` with
`oracleZero` (composite score exactly 0), where the returned allocation is
non-empty and entirely non-finite, and to `exA` with `oracleCex` (total
3/4), where the finite allocations come back. -/
theorem C2_division_witness :
    ([exZ] ≠ []) ∧ totalScore tanh0 oracleZero 50 [exZ] = 0 ∧
    (calculate_optimal_routing tanh0 oracleZero 50 [exZ] ≠ [] ∧
      ∀ p ∈ calculate_optimal_routing tanh0 oracleZero 50 [exZ], p.2.isFinite = false) ∧
    totalScore tanh0 oracleCex 50 [exA] ≠ 0 ∧
    calculate_optimal_routing tanh0 oracleCex 50 [exA]
      = (routingScores tanh0 oracleCex 50 [exA]).map
          (fun p => (p.1, PyFloat.finite
            (p.2 / totalScore tanh0 oracleCex 50 [exA] * 50))) := by
  have hz : totalScore tanh0 oracleZero 50 [exZ] = 0 := by
    norm_num [totalScore, routingScores, dictInsert, compositeScore, oracleZero, exZ, tanh0]
  have hnz : totalScore tanh0 oracleCex 50 [exA] ≠ 0 := by
    norm_num [totalScore, routingScores, dictInsert, compositeScore, oracleCex, exA, tanh0, strAB]
  exact ⟨by simp, hz, ((C2_division tanh0 oracleZero 50 [exZ]).2.1 (by simp) hz),
    hnz, ((C2_division tanh0 oracleCex 50 [exA]).2.2 hnz)⟩

-- C3

/-- C3 counterexample: for venue snapshot `exB` (all inputs already inside
their meaningful ranges: probability 1/2, liquidity 1/2, impact 1/20, fee
0, latency 0, so clipping would change nothing) the score computed by the
source is -1/4 while the spec's formula gives 0.74: the source multiplies
impact and fee by 100 inside the formula. -/
theorem C3_counterexample :
    compositeScore tanh0 oracleCex 100 exB = -(1/4) ∧
    specCompositeScore tanh0 oracleCex 100 exB = 74/100 ∧
    compositeScore tanh0 oracleCex 100 exB ≠ specCompositeScore tanh0 oracleCex 100 exB := by
  refine ⟨?_, ?_, ?_⟩
  · norm_num [compositeScore, oracleCex, exB, tanh0]
  · norm_num [specCompositeScore, oracleCex, exB, tanh0]
  · norm_num [compositeScore, specCompositeScore, oracleCex, exB, tanh0]

/-- C3 amended: the composite score the source computes is
`0.3*success_prob + 0.2*liquidity + 0.2*(1 - 100*impact)
+ 0.15*(1 - 100*fee) + 0.15*(1 - tanh(latency/20))` — impact and fee are
scaled by 100, and the inputs are used raw, with no clipping anywhere. -/
theorem C3_formula (tanh : ℚ → ℚ) (oracle : Oracle) (q : ℚ) (ex : ExchangeFeatures) :
    compositeScore tanh oracle q ex
      = 0.3 * oracle.successProb ex q + 0.2 * ex.liquidity_score
        + 0.2 * (1 - 100 * oracle.impact ex q) + 0.15 * (1 - 100 * ex.fee_percentage)
        + 0.15 * (1 - tanh (ex.latency_ms / 20)) := by
  unfold compositeScore
  ring

/-- A venue that is inactive or lacks the symbol contributes no feature
snapshot. -/
theorem featureOf_none (imb : String → ℚ) (symbol : String)
    (p : String × ExchangeSimulator)
    (h : p.2.is_active = false ∨ get_market_data p.2 symbol = none) :
    featureOf imb symbol p = none := by
  unfold featureOf
  rcases h with h | h
  · rw [if_pos h]
  · by_cases ha : p.2.is_active = false
    · rw [if_pos ha]
    · rw [if_neg ha, h]

/-- If every venue is inactive or lacks the symbol, the collected feature
list is empty. -/
theorem collectFeatures_nil (imb : String → ℚ) (router : SmartOrderRouter)
    (symbol : String)
    (h : ∀ p ∈ router.exchanges, p.2.is_active = false ∨ get_market_data p.2 symbol = none) :
    collectFeatures imb router symbol = [] := by
  unfold collectFeatures
  rw [List.filterMap_eq_nil_iff]
  intro p hp
  exact featureOf_none imb symbol p (h p hp)

/-- The fan-in returns a gathered result list only when nothing was
dispatched, and that list is empty; any dispatched child makes the cycle
raise instead. -/
theorem execAll_ok_iff (exchanges : List (String × ExchangeSimulator))
    (dispatched : List (String × PyFloat)) (rs : List ExecResult)
    (h : execAll exchanges dispatched = .ok rs) :
    dispatched = [] ∧ rs = [] := by
  unfold execAll at h
  cases hf : dispatched.find? (fun p => (assocFind p.1 exchanges).isNone) with
  | some p => rw [hf] at h; exact absurd h (by simp)
  | none =>
    rw [hf] at h
    by_cases hd : dispatched = []
    · rw [if_pos hd] at h
      injection h with h
      exact ⟨hd, h.symm⟩
    · rw [if_neg hd] at h
      exact absurd h (by simp)

-- C4

/-- C4 counterexample: with the single (inactive) venue router the early
return carries reason "No active exchanges" — capitalised, unlike the
claimed "no active exchanges" — and the result dict has no
`routing_decisions` key at all, rather than mapping it to the empty
list. -/
theorem C4_counterexample :
    route_order tanh0 oracleCex imb0 5 routerN orderM
      = .ok (.failure "O1" "No active exchanges", routerN) ∧
    (RouteResult.failure "O1" "No active exchanges").routingDecisions? ≠ some [] ∧
    (RouteResult.failure "O1" "No active exchanges").reason? ≠ some "no active exchanges" := by
  refine ⟨?_, by simp [RouteResult.routingDecisions?], by simp [RouteResult.reason?]⟩
  have hres : collectFeatures imb0 routerN "AAPL" = [] := by
    simp [collectFeatures, featureOf, routerN, simN]
  unfold route_order
  simp only [orderM, hres]
  rfl

/-- C4 amended: if every venue is inactive or reports no market data for
the order's symbol, `route_order` returns — without raising — the short
failure dict with success False and reason "No active exchanges"
(capitalised), a dict that contains no `routing_decisions` key at all; the
router state is left untouched. -/
theorem C4_no_active (tanh : ℚ → ℚ) (oracle : Oracle) (imb : String → ℚ)
    (elapsed : ℚ) (router : SmartOrderRouter) (order : Order)
    (h : ∀ p ∈ router.exchanges,
      p.2.is_active = false ∨ get_market_data p.2 order.symbol = none) :
    route_order tanh oracle imb elapsed router order
      = .ok (.failure order.order_id "No active exchanges", router) ∧
    (RouteResult.failure order.order_id "No active exchanges").success = false ∧
    (RouteResult.failure order.order_id "No active exchanges").routingDecisions? = none := by
  refine ⟨?_, rfl, rfl⟩
  unfold route_order
  rw [collectFeatures_nil imb router order.symbol h]
  rfl

/-- C4 witness: the amended theorem applied to the inactive-venue router. -/
theorem C4_no_active_witness :
    (∀ p ∈ routerN.exchanges,
      p.2.is_active = false ∨ get_market_data p.2 orderM.symbol = none) ∧
    route_order tanh0 oracleCex imb0 5 routerN orderM
      = .ok (.failure orderM.order_id "No active exchanges", routerN) := by
  have h : ∀ p ∈ routerN.exchanges,
      p.2.is_active = false ∨ get_market_data p.2 orderM.symbol = none := by
    intro p hp
    have hp' : p = ("N", simN) := by simpa [routerN] using hp
    subst hp'
    exact Or.inl rfl
  exact ⟨h, (C4_no_active tanh0 oracleCex imb0 5 routerN orderM h).1⟩

-- C5

/-- C5 refutation (code bug): `execute_order` cannot record a LIMIT child
as a structured failure, because its very first statement raises on every
call — line 67 of exchange_service.py calls `random.exponential`, which
the stdlib random module does not define — so the child crashes instead of
being recorded.  The unreachable remainder of the body (lines 75-80) is
exactly the structured success-False "Limit orders simplified" response
the claim — and the spec's `UnsupportedOrderType` taxonomy entry —
describe, with the venue state untouched, so the claim states the evident
intent and the code is a slip. -/
theorem C5_limit_attribute_error :
    orderL.order_type = "LIMIT" ∧
    execute_order simA orderL = .error "AttributeError" ∧
    execute_order_body simA 1 orderL
      = .ok ({ success := false, reason := some "Limit orders simplified",
               executed_price := 0, executed_quantity := 0, fee := 0,
               latency_ms := 0 }, simA) := by
  refine ⟨rfl, rfl, ?_⟩
  norm_num [execute_order_body, assocFind, simA, orderL, strLM]

-- C6

/-- C6 refutation (code bug): `execute_order` never returns — every call
raises `AttributeError` at line 67 (`random.exponential` does not exist in
the stdlib random module) — so no MARKET order is ever priced against the
book.  The unreachable remainder of the body (lines 70-93) implements
exactly the claimed behaviour: top-of-book price on the order's side (ask
for BUY, bid for SELL), quantity min(requested, top volume), fee =
executed_quantity * executed_price * fee rate, as its evaluation on the
concrete BUY and SELL orders shows; the claim states the evident intent
and the code is a slip. -/
theorem C6_market_attribute_error :
    orderM.order_type = "MARKET" ∧
    execute_order simA orderM = .error "AttributeError" ∧
    execute_order_body simA 1 orderM
      = .ok ({ success := true, reason := none, executed_price := 101,
               executed_quantity := 100, fee := 0, latency_ms := 1 }, simA) ∧
    execute_order_body simA 1 orderS
      = .ok ({ success := true, reason := none, executed_price := 99,
               executed_quantity := 200, fee := 0, latency_ms := 1 }, simA) := by
  refine ⟨rfl, rfl, ?_, ?_⟩
  · norm_num [execute_order_body, assocFind, simA, orderM, bookA]
  · norm_num [execute_order_body, assocFind, simA, orderS, bookA, strSB]

-- C7

/-- C7 refutation (code bug, twice over): the claim describes the spec's
intent, but (1) no `execute_order` call can succeed — every call raises
`AttributeError` at line 67 (`random.exponential` is not a stdlib random
function) — so "after n successful executions" is unrealisable for any
n >= 1, and (2) even the unreachable success path of the body (lines
82-93) returns the venue state unchanged, never appending to
`executed_orders`, so `get_exchange_status` would keep reporting
`total_executed = 0` even with line 67 repaired. -/
theorem C7_counter_never_incremented :
    execute_order simA orderM = .error "AttributeError" ∧
    (∃ res, execute_order_body simA 1 orderM = .ok (res, simA) ∧ res.success = true) ∧
    (get_exchange_status simA).total_executed = 0 := by
  refine ⟨rfl, ⟨{ success := true, reason := none, executed_price := 101,
                  executed_quantity := 100, fee := 0, latency_ms := 1 }, ?_, rfl⟩, rfl⟩
  norm_num [execute_order_body, assocFind, simA, orderM, bookA]

-- C9

/-- Multiplying a summed map by a constant on the left. -/
theorem sum_map_mul_left_exec (l : List ExecResult) (c : ℚ) (f : ExecResult → ℚ) :
    (l.map (fun r => c * f r)).sum = c * (l.map f).sum := by
  induction l with
  | nil => simp
  | cons a l ih => simp [ih, mul_add]

/-- C9: the reported average price is the volume-weighted mean over the
successful children only — it equals weighted_price / total_executed when
total_executed > 0 and is 0 when no child succeeded (no division by zero);
and with non-negative executed quantities it lies within any interval
[m, M] containing the executed prices of the children that actually filled
(success with positive quantity), whenever at least one child filled. -/
theorem C9_weighted_average (rs : List ExecResult)
    (hnn : ∀ r ∈ rs, r.success = true → 0 ≤ r.executed_quantity) :
    ((∀ r ∈ rs, r.success = false) → avgPriceOf rs = 0) ∧
    (0 < totalExecutedOf rs → avgPriceOf rs = weightedPriceOf rs / totalExecutedOf rs) ∧
    (∀ m M, (∀ r ∈ rs, r.success = true → 0 < r.executed_quantity →
        m ≤ r.executed_price ∧ r.executed_price ≤ M) →
      (∃ r, r ∈ rs ∧ r.success = true ∧ 0 < r.executed_quantity) →
      m ≤ avgPriceOf rs ∧ avgPriceOf rs ≤ M) := by
  refine ⟨?_, ?_, ?_⟩
  · intro h
    have hf : rs.filter (fun r => r.success) = [] := by
      rw [List.filter_eq_nil_iff]
      intro r hr
      simp [h r hr]
    simp [avgPriceOf, totalExecutedOf, hf]
  · intro h
    unfold avgPriceOf
    rw [if_pos h]
  · intro m M hb hex
    obtain ⟨r0, hr0, hs0, hq0⟩ := hex
    have hr0F : r0 ∈ rs.filter (fun r => r.success) :=
      List.mem_filter.mpr ⟨hr0, by simp [hs0]⟩
    have hqnn : ∀ x ∈ (rs.filter (fun r => r.success)).map (fun r => r.executed_quantity),
        0 ≤ x := by
      intro x hx
      obtain ⟨r, hrF, hxr⟩ := List.mem_map.mp hx
      obtain ⟨hrs, hsucc⟩ := List.mem_filter.mp hrF
      rw [← hxr]
      exact hnn r hrs (by simpa using hsucc)
    have hte : 0 < totalExecutedOf rs := by
      have hle := List.single_le_sum hqnn r0.executed_quantity
        (List.mem_map.mpr ⟨r0, hr0F, rfl⟩)
      exact lt_of_lt_of_le hq0 (by simpa [totalExecutedOf] using hle)
    have hwp_le : weightedPriceOf rs ≤ M * totalExecutedOf rs := by
      unfold weightedPriceOf totalExecutedOf
      rw [← sum_map_mul_left_exec]
      refine List.sum_le_sum ?_
      intro r hrF
      obtain ⟨hrs, hsucc⟩ := List.mem_filter.mp hrF
      have hq := hnn r hrs (by simpa using hsucc)
      rcases lt_or_eq_of_le hq with hq | hq
      · exact mul_le_mul_of_nonneg_right ((hb r hrs (by simpa using hsucc) hq).2) (le_of_lt hq)
      · rw [← hq]
        simp
    have hwp_ge : m * totalExecutedOf rs ≤ weightedPriceOf rs := by
      unfold weightedPriceOf totalExecutedOf
      rw [← sum_map_mul_left_exec]
      refine List.sum_le_sum ?_
      intro r hrF
      obtain ⟨hrs, hsucc⟩ := List.mem_filter.mp hrF
      have hq := hnn r hrs (by simpa using hsucc)
      rcases lt_or_eq_of_le hq with hq | hq
      · exact mul_le_mul_of_nonneg_right ((hb r hrs (by simpa using hsucc) hq).1) (le_of_lt hq)
      · rw [← hq]
        simp
    unfold avgPriceOf
    rw [if_pos hte]
    exact ⟨(le_div_iff₀ hte).mpr hwp_ge, (div_le_iff₀ hte).mpr hwp_le⟩

/-- C9 witness: two fills (100 for 10, 110 for 30) and one failure give
average 215/2 = 107.5, inside [100, 110] and equal to the weighted mean. -/
theorem C9_weighted_average_witness :
    (∀ r ∈ [resP, resQ, resF], r.success = true → 0 ≤ r.executed_quantity) ∧
    avgPriceOf [resP, resQ, resF] = 215/2 ∧
    (100 : ℚ) ≤ avgPriceOf [resP, resQ, resF] ∧ avgPriceOf [resP, resQ, resF] ≤ 110 := by
  have hnn : ∀ r ∈ [resP, resQ, resF], r.success = true → 0 ≤ r.executed_quantity := by
    intro r hr
    simp only [List.mem_cons, List.not_mem_nil, or_false] at hr
    rcases hr with h | h | h <;> subst h <;> norm_num [resP, resQ, resF]
  have hmM := (C9_weighted_average [resP, resQ, resF] hnn).2.2 100 110 ?bounds ?ex
  · refine ⟨hnn, ?_, hmM⟩
    norm_num [avgPriceOf, totalExecutedOf, weightedPriceOf, resP, resQ, resF]
  case bounds =>
    intro r hr
    simp only [List.mem_cons, List.not_mem_nil, or_false] at hr
    rcases hr with h | h | h <;> subst h <;> norm_num [resP, resQ, resF]
  case ex =>
    exact ⟨resP, by simp, rfl, by norm_num [resP]⟩

-- Concrete cycle evaluations

/-- Feature collection over `routerAB` yields the two snapshots. -/
theorem cf_AB : collectFeatures imb0 routerAB orderM.symbol = [featA, featB] := by
  norm_num [collectFeatures, List.filterMap_cons, featureOf, get_market_data,
    get_exchange_status, assocFind, headPrice, headVolume, routerAB, simA, simB,
    bookA, bookB, orderM, imb0, featA, featB]

/-- Allocation under the degenerate oracle: both scores are 0, the total
is 0, and both allocations are nan (0.0/0.0 times the order size). -/
theorem calcDeg : calculate_optimal_routing tanh0 oracleDeg orderM.quantity [featA, featB]
    = [("A", PyFloat.nan), ("B", PyFloat.nan)] := by
  norm_num [calculate_optimal_routing, routingScores, dictInsert, compositeScore,
    oracleDeg, tanh0, orderM, featA, featB, strAB, divZeroTimes]

/-- The degenerate cycle: nan allocations dispatch nothing, so the fan-in
returns the empty list and the cycle completes with zero executions. -/
theorem runDeg : route_order tanh0 oracleDeg imb0 5 routerAB orderM
    = .ok (resDeg, routerABDeg) := by
  unfold route_order
  rw [cf_AB]
  simp only []
  rw [if_neg (List.cons_ne_nil _ _), calcDeg]
  norm_num [execAll, assocFind, PyFloat.gt0, totalExecutedOf, totalFeesOf,
    weightedPriceOf, avgPriceOf, orderM, resDeg, routerABDeg, routerAB]

-- C8

/-- C8: every routing cycle that reaches aggregation satisfies the claim —
degenerately so, because a cycle that dispatches any child raises
`AttributeError` (exchange_service.py line 67) at the fan-in and never
reaches aggregation.  An aggregating cycle therefore has an empty
execution list: total_executed = 0, fill_rate = total_executed / requested
= 0, which lies in [0,1]; fill_rate = 0 iff total_executed = 0; and the
success flag is true iff total_executed > 0 (both sides false). -/
theorem C8_fill_rate (tanh : ℚ → ℚ) (oracle : Oracle) (imb : String → ℚ)
    (elapsed : ℚ) (router : SmartOrderRouter) (order : Order)
    (oid : String) (succ : Bool) (te ap tf et fr : ℚ) (rd : List RoutingDecision)
    (router' : SmartOrderRouter)
    (hq : 0 < order.quantity)
    (hok : route_order tanh oracle imb elapsed router order
      = .ok (.completed oid succ te ap tf et rd fr, router')) :
    fr = te / order.quantity ∧ 0 ≤ fr ∧ fr ≤ 1 ∧ (fr = 0 ↔ te = 0) ∧
    (succ = true ↔ 0 < te) := by
  unfold route_order at hok
  by_cases hf : collectFeatures imb router order.symbol = []
  · simp only [hf, if_true, Except.ok.injEq, Prod.mk.injEq] at hok
    exact absurd hok.1 (by simp)
  · simp only [if_neg hf] at hok
    cases he : execAll router.exchanges
        ((calculate_optimal_routing tanh oracle order.quantity
          (collectFeatures imb router order.symbol)).filter (fun p => p.2.gt0)) with
    | error e => rw [he] at hok; exact absurd hok (by simp)
    | ok results =>
      rw [he] at hok
      obtain ⟨hdisp, hres⟩ := execAll_ok_iff _ _ _ he
      subst hres
      simp only [Except.ok.injEq, Prod.mk.injEq, RouteResult.completed.injEq] at hok
      obtain ⟨⟨hoid, hsucc, hte, hap, htf, het, hrd, hfr⟩, hrt⟩ := hok
      subst hte
      subst hfr
      subst hsucc
      have hte0 : totalExecutedOf ([] : List ExecResult) = 0 := rfl
      have h1 : (if 0 < order.quantity then
          totalExecutedOf ([] : List ExecResult) / order.quantity else 0)
          = totalExecutedOf ([] : List ExecResult) / order.quantity := if_pos hq
      refine ⟨h1, ?_, ?_, ?_, decide_eq_true_iff⟩
      · rw [h1, hte0, zero_div]
      · rw [h1, hte0, zero_div]
        exact zero_le_one
      · rw [h1, hte0, zero_div]

/-- C8 witness: the degenerate cycle reaches aggregation (two active
venues, zero-total scores, nothing dispatched) and exhibits fill rate
0 = 0/100 with success false. -/
theorem C8_fill_rate_witness :
    (0 : ℚ) < orderM.quantity ∧
    route_order tanh0 oracleDeg imb0 5 routerAB orderM = .ok (resDeg, routerABDeg) ∧
    ((0 : ℚ) = 0 / orderM.quantity ∧ (0 : ℚ) ≤ 0 ∧ (0 : ℚ) ≤ 1 ∧
      ((0 : ℚ) = 0 ↔ (0 : ℚ) = 0) ∧ (false = true ↔ (0 : ℚ) < 0)) := by
  have hq : (0 : ℚ) < orderM.quantity := by norm_num [orderM]
  exact ⟨hq, runDeg, C8_fill_rate tanh0 oracleDeg imb0 5 routerAB orderM
    "O1" false 0 0 0 5 0 [] routerABDeg hq (by rw [runDeg]; rfl)⟩

-- C10

/-- C10: every `route_order` call that returns preserves the invariant
total_orders_routed = |routing_history| and total_volume_routed =
sum of total_executed over routing_history; the early "No active
exchanges" return leaves the router state — counters and history — 
literally unchanged, so such failed cycles are invisible to
`get_routing_statistics`. -/
theorem C10_statistics_invariant (tanh : ℚ → ℚ) (oracle : Oracle)
    (imb : String → ℚ) (elapsed : ℚ) (router : SmartOrderRouter)
    (order : Order) (res : RouteResult) (router' : SmartOrderRouter)
    (hok : route_order tanh oracle imb elapsed router order = .ok (res, router'))
    (hinv : routerInvariant router) :
    routerInvariant router' ∧
    (collectFeatures imb router order.symbol = [] →
      router' = router ∧ get_routing_statistics router' = get_routing_statistics router) := by
  unfold route_order at hok
  by_cases hf : collectFeatures imb router order.symbol = []
  · simp only [hf, if_true, Except.ok.injEq, Prod.mk.injEq] at hok
    obtain ⟨hres, hrt⟩ := hok
    subst hrt
    exact ⟨hinv, fun _ => ⟨rfl, rfl⟩⟩
  · simp only [if_neg hf] at hok
    cases he : execAll router.exchanges
        ((calculate_optimal_routing tanh oracle order.quantity
          (collectFeatures imb router order.symbol)).filter (fun p => p.2.gt0)) with
    | error e => rw [he] at hok; exact absurd hok (by simp)
    | ok results =>
      rw [he] at hok
      simp only [Except.ok.injEq, Prod.mk.injEq] at hok
      obtain ⟨hres, hrt⟩ := hok
      subst hrt
      refine ⟨⟨?_, ?_⟩, fun hff => absurd hff hf⟩
      · simp [hinv.1]
      · simp [RouteResult.totalExecuted, hinv.2]

/-- C10 witness: the invariant holds for the fresh router and is preserved
by the concrete degenerate cycle (1 order routed, volume unchanged). -/
theorem C10_statistics_invariant_witness :
    routerInvariant routerAB ∧
    route_order tanh0 oracleDeg imb0 5 routerAB orderM = .ok (resDeg, routerABDeg) ∧
    routerInvariant routerABDeg := by
  have hinv : routerInvariant routerAB := by
    unfold routerInvariant
    constructor <;> simp [routerAB]
  exact ⟨hinv, runDeg, (C10_statistics_invariant tanh0 oracleDeg imb0 5 routerAB
    orderM resDeg routerABDeg runDeg hinv).1⟩
